import Mathlib

/-!
# Verification of the Sellandiamman Traders order/stock core

Shallow embedding of the order lifecycle, stock ledger, audit logging and
route/permission gating of the Sellandiamman Traders warehouse application,
together with proofs of the specified properties.

Sources embedded:
* `backend/schema.sql` — enumerated types, default values, foreign-key
  cascade structure of the relational store;
* `frontend/src/pages/staff/OrderModify.js` — `canEdit`, the mutation
  handlers (`handleUpdateCustomer`, `handleUpdateQty`, `handleRemoveItem`,
  `handleAddItem`, `handleToggleStatus`) and their reason fields;
* `frontend/src/pages/staff/PicklistPage.js` — `allPicked` and the
  derived status badge;
* `frontend/src/App.js` — `ProtectedRoute` and the route tables;
* the order-creation page — `addItem` / `removeItem` / `updateQuantity`
  on the draft item list;
* the product form page — `generateLocationCode`.
-/

/-- `employees.role ENUM('admin', 'staff')` from `backend/schema.sql`. -/
inductive Role where
  | admin
  | staff
deriving DecidableEq, Repr

/-- `orders.status ENUM('pending', 'completed')` from `backend/schema.sql`. -/
inductive OrderStatus where
  | pending
  | completed
deriving DecidableEq, Repr

/-- `order_items.picking_status ENUM('pending', 'picked')` from
`backend/schema.sql`. -/
inductive PickingStatus where
  | pending
  | picked
deriving DecidableEq, Repr

/-- `orders.status ... DEFAULT 'pending'` from `backend/schema.sql`: the
status value a freshly inserted order row receives. -/
def initialOrderStatus : OrderStatus := OrderStatus.pending

/-- `useAuth().isAdmin()` as a function of the actor's role. -/
def isAdminRole : Role → Bool
  | Role.admin => true
  | Role.staff => false

/-- One line item of an order as rendered by `OrderModify.js` /
`PicklistPage.js`: `{ id, sku, product_name, full_location_code,
quantity_required, picking_status }`. -/
structure OrderItem where
  id : Nat
  sku : String
  product_name : String
  full_location_code : String
  quantity_required : Nat
  picking_status : PickingStatus
deriving DecidableEq, Repr

/-- An order as fetched by the modify/picklist pages:
`{ id, order_number, customer_name, status, items }`. -/
structure StoreOrder where
  id : Nat
  order_number : String
  customer_name : String
  status : OrderStatus
  items : List OrderItem
deriving DecidableEq, Repr

/-- `canEdit` from `OrderModify.js`:
`if (!order) return false; if (isAdmin()) return true;
return order.status === 'pending';`. -/
def canEdit (role : Role) (order : Option StoreOrder) : Bool :=
  match order with
  | none => false
  | some o =>
    if isAdminRole role then true
    else decide (o.status = OrderStatus.pending)

/-- `handleToggleStatus` from `OrderModify.js` computes the toggled status:
`order.status === 'pending' ? 'completed' : 'pending'`. -/
def toggledStatus : OrderStatus → OrderStatus
  | OrderStatus.pending => OrderStatus.completed
  | OrderStatus.completed => OrderStatus.pending

/-- The status-toggle button in `OrderModify.js` is rendered only inside
`{isAdmin() && (...)}`; a staff actor has no way to trigger
`handleToggleStatus`, so a staff toggle attempt produces no transition. -/
def toggleStatus (role : Role) (s : OrderStatus) : Option OrderStatus :=
  if isAdminRole role then some (toggledStatus s) else none

/-- Run a sequence of toggle attempts from a status, returning the final
status together with the log of transitions that actually happened
(actor, pre-status, post-status); a rejected attempt changes nothing and
logs nothing. -/
def runToggles (s : OrderStatus) : List Role →
    OrderStatus × List (Role × OrderStatus × OrderStatus)
  | [] => (s, [])
  | a :: rest =>
    match toggleStatus a s with
    | some s' =>
      ((runToggles s' rest).1, (a, s, s') :: (runToggles s' rest).2)
    | none => runToggles s rest

/-! ## Stock Ledger

The backend route implementations are not under `src/` (only the schema
column `products.quantity_available INT` and the frontend callers are),
so the ledger operations are modelled from the spec. -/

/-- The spec's `InsufficientStock` error. -/
inductive StockError where
  | InsufficientStock
deriving DecidableEq, Repr

/-- Modelled from the spec: the Stock Ledger `deduct(sku, amount)` operation
(backend route code absent from `src/`) — "fails with InsufficientStock if
`quantity_available < amount`; otherwise atomically decrements". The
quantity for one SKU is the `Int`-valued `products.quantity_available`. -/
def deduct (qty : Int) (amount : Int) : Except StockError Int :=
  if qty < amount then Except.error StockError.InsufficientStock
  else Except.ok (qty - amount)

/-- Modelled from the spec: the Stock Ledger `restore(sku, amount)`
operation (backend route code absent from `src/`) — "atomically increments;
no upper bound check". -/
def restore (qty : Int) (amount : Int) : Int := qty + amount

/-- One ledger operation on a single SKU's quantity. -/
inductive StockOp where
  | deductOp (amount : Int)
  | restoreOp (amount : Int)
deriving DecidableEq, Repr

/-- The amount an operation carries. -/
def StockOp.amount : StockOp → Int
  | StockOp.deductOp a => a
  | StockOp.restoreOp a => a

/-- Apply one ledger operation; a failing deduct leaves the quantity
unchanged (the whole operation is aborted). -/
def applyStockOp (qty : Int) : StockOp → Int
  | StockOp.deductOp a =>
    match deduct qty a with
    | Except.ok q => q
    | Except.error _ => qty
  | StockOp.restoreOp a => restore qty a

/-- Run a sequence of ledger operations on one SKU's quantity. -/
def runStockOps (qty : Int) (ops : List StockOp) : Int :=
  ops.foldl applyStockOp qty

/-! ## Relational store and order deletion

`backend/schema.sql`: `order_items` carries
`FOREIGN KEY (order_id) REFERENCES orders(id) ON DELETE CASCADE`;
`order_modification_logs` has no foreign key on `order_id` at all. -/

/-- A row of the `orders` table (the columns the deletion claim needs). -/
structure OrderRow where
  id : Nat
  order_number : String
  customer_name : String
  status : OrderStatus
deriving DecidableEq, Repr

/-- A row of the `order_items` table. -/
structure OrderItemRow where
  id : Nat
  order_id : Nat
  sku : String
  quantity_required : Nat
  picking_status : PickingStatus
deriving DecidableEq, Repr

/-- A row of the `order_modification_logs` table. -/
structure LogRow where
  id : Nat
  order_id : Nat
  order_number : String
  modification_type : String
  field_changed : String
  old_value : String
  new_value : String
  reason : Option String
deriving DecidableEq, Repr

/-- The relational store: the three tables of `backend/schema.sql` the
deletion claim touches. -/
structure DB where
  orders : List OrderRow
  order_items : List OrderItemRow
  order_modification_logs : List LogRow
deriving DecidableEq, Repr

/-- Modelled from the spec: the admin-only hard delete of an order (the
backend route code is absent from `src/`; "hard delete, cascades to
items"). The row-level effect follows `backend/schema.sql`: deleting the
`orders` row cascade-deletes the `order_items` rows with that `order_id`
via `ON DELETE CASCADE`, while `order_modification_logs` has no foreign
key and is not touched by the delete statement. -/
def deleteOrder (db : DB) (oid : Nat) : DB :=
  { orders := db.orders.filter (fun o => ¬ o.id = oid)
    order_items := db.order_items.filter (fun it => ¬ it.order_id = oid)
    order_modification_logs := db.order_modification_logs }

/-- `GET /api/orders/:id/modification-history` at the store level: the log
rows for one order (`idx_order_id` lookup). -/
def historyFor (db : DB) (oid : Nat) : List LogRow :=
  db.order_modification_logs.filter (fun l => l.order_id = oid)

/-! ## Order creation draft (CreateOrder page) -/

/-- A product search result as used by the create-order page:
`{ sku, product_name, full_location_code, quantity_available }`. -/
structure Product where
  sku : String
  product_name : String
  full_location_code : String
  quantity_available : Int
deriving DecidableEq, Repr

/-- A line of the draft item list built on the create-order page. -/
structure DraftItem where
  sku : String
  product_name : String
  full_location_code : String
  quantity_required : Nat
  quantity_available : Int
deriving DecidableEq, Repr

/-- `addItem(product)` from the create-order page: if
`items.find(i => i.sku === product.sku)` hits, map the list incrementing
that line's `quantity_required` by `qtyInput`; otherwise append a new line
built from the product snapshot and `qtyInput`. -/
def addItem (items : List DraftItem) (product : Product) (qtyInput : Nat) :
    List DraftItem :=
  if items.any (fun i => i.sku == product.sku) then
    items.map (fun i =>
      if i.sku == product.sku then
        { i with quantity_required := i.quantity_required + qtyInput }
      else i)
  else
    items ++ [{ sku := product.sku
                product_name := product.product_name
                full_location_code := product.full_location_code
                quantity_required := qtyInput
                quantity_available := product.quantity_available }]

/-- `removeItem(sku)` from the create-order page:
`items.filter(i => i.sku !== sku)`. -/
def removeDraftItem (items : List DraftItem) (sku : String) : List DraftItem :=
  items.filter (fun i => ¬ i.sku == sku)

/-- `updateQuantity(sku, qty)` from the create-order page:
`if (qty < 1) return;` else map replacing that sku's quantity. -/
def updateQuantity (items : List DraftItem) (sku : String) (qty : Int) :
    List DraftItem :=
  if qty < 1 then items
  else items.map (fun i =>
    if i.sku == sku then { i with quantity_required := qty.toNat } else i)

/-- One user action on the draft item list. -/
inductive DraftAction where
  | add (product : Product) (qtyInput : Nat)
  | remove (sku : String)
  | update (sku : String) (qty : Int)
deriving Repr

/-- Apply one draft action. -/
def applyDraftAction (items : List DraftItem) : DraftAction → List DraftItem
  | DraftAction.add p q => addItem items p q
  | DraftAction.remove sku => removeDraftItem items sku
  | DraftAction.update sku q => updateQuantity items sku q

/-- The draft item list after a sequence of user actions, starting from the
page's initial empty list (`useState([])`). -/
def runDraft (acts : List DraftAction) : List DraftItem :=
  acts.foldl applyDraftAction []

/-- `handleSubmit` from the create-order page posts
`items.map(i => ({ sku: i.sku, quantity_required: i.quantity_required }))`. -/
def submitItems (items : List DraftItem) : List (String × Nat) :=
  items.map (fun i => (i.sku, i.quantity_required))

/-- The SKU column of a draft item list. -/
def draftSkus (items : List DraftItem) : List String :=
  items.map (fun i => i.sku)

/-! ## Location code (ProductFormPage) -/

/-- JavaScript `String(n).padStart(2, '0')` for a natural number `n`. -/
def padStart2 (s : String) : String :=
  String.mk (List.replicate (2 - s.length) '0') ++ s

/-- `generateLocationCode` from the product form page:
`if (!zone) return '';` else the template string
zone, dash, 2-padded aisle, dash, R + 2-padded rack, dash, S + shelf,
dash, B + 2-padded bin. -/
def generateLocationCode (zone : String) (aisle rack shelf bin : Nat) :
    String :=
  if zone = "" then ""
  else
    zone ++ "-" ++ padStart2 (toString aisle) ++ "-R" ++
      padStart2 (toString rack) ++ "-S" ++ toString shelf ++ "-B" ++
      padStart2 (toString bin)

/-- The location-code format as the spec words it: the five components
(zone; aisle zero-padded to 2 digits; R plus the rack zero-padded to 2
digits; S plus the shelf; B plus the bin zero-padded to 2 digits) joined
by dashes. Stated from the spec for comparison with
`generateLocationCode`. -/
def specLocationCode (zone : String) (aisle rack shelf bin : Nat) : String :=
  String.intercalate "-"
    [zone, padStart2 (toString aisle), "R" ++ padStart2 (toString rack),
      "S" ++ toString shelf, "B" ++ padStart2 (toString bin)]

/-! ## Mutation handlers of OrderModify.js -/

/-- What a handler does before the network: either it rejects the input
with a toast error and returns (no request issued), or it issues exactly
one request carrying the given payload. -/
inductive HandlerResult (α : Type) where
  | validationError (message : String)
  | request (payload : α)
deriving DecidableEq, Repr

/-- Whether a handler outcome reaches storage at all: only an issued
request does. -/
def HandlerResult.touchesStorage {α : Type} : HandlerResult α → Bool
  | HandlerResult.validationError _ => false
  | HandlerResult.request _ => true

/-- Interpret a handler outcome against an arbitrary storage semantics
`apply`: a validation error leaves the storage state untouched, a request
applies its payload. -/
def runHandler {α S : Type} (apply : α → S → S) (s : S) :
    HandlerResult α → S
  | HandlerResult.validationError _ => s
  | HandlerResult.request p => apply p s

/-- Body of `PATCH /api/orders/:id/customer`. -/
structure CustomerPatch where
  customer_name : String
  reason : Option String
deriving DecidableEq, Repr

/-- Body of `PATCH /api/orders/:id/items/:itemId/quantity`. -/
structure QtyPatch where
  quantity_required : Int
  reason : Option String
deriving DecidableEq, Repr

/-- Body of `POST /api/orders/:id/items`. -/
structure AddItemPost where
  sku : String
  quantity_required : Nat
  reason : Option String
deriving DecidableEq, Repr

/-- JavaScript `s || null` for a string `s`: `null` exactly when `s` is
empty (falsy), else `s` itself. -/
def orNull (s : String) : Option String :=
  if s = "" then none else some s

/-- JavaScript `x || null` where `x : string | null` came from `prompt`
(which yields `null` on cancel). -/
def promptOrNull (x : Option String) : Option String :=
  match x with
  | none => none
  | some s => if s = "" then none else some s

/-- JavaScript `x || ''` where `x : string | null` came from `prompt`:
the reason value placed (URL-escaped by `encodeURIComponent`, which the
server inverts when reading the query parameter) in the delete request's
`reason` query parameter by `handleRemoveItem`. -/
def orEmpty (x : Option String) : String :=
  match x with
  | none => ""
  | some s => if s = "" then "" else s

/-- JavaScript `s.trim()`: the string with leading and trailing
whitespace removed. -/
def jsTrim (s : String) : String :=
  String.mk
    (((s.data.dropWhile Char.isWhitespace).reverse.dropWhile
      Char.isWhitespace).reverse)

/-- `handleUpdateCustomer` from `OrderModify.js`: rejects an empty-after-trim
customer name (`!customerName.trim()`) with a toast error before any
request; otherwise issues the patch carrying `customer_name` and
`reason: reason || null`. -/
def handleUpdateCustomer (customerName : String) (reason : String) :
    HandlerResult CustomerPatch :=
  if jsTrim customerName = "" then
    HandlerResult.validationError "Customer name cannot be empty"
  else
    HandlerResult.request
      { customer_name := customerName, reason := orNull reason }

/-- `handleUpdateQty` from `OrderModify.js`: rejects `newQty < 1` with a
toast error before any request; otherwise issues the patch carrying
`quantity_required: newQty` and `reason: reason || null`. -/
def handleUpdateQty (newQty : Int) (reason : String) :
    HandlerResult QtyPatch :=
  if newQty < 1 then
    HandlerResult.validationError "Quantity must be at least 1"
  else
    HandlerResult.request
      { quantity_required := newQty, reason := orNull reason }

/-- `handleAddItem` from `OrderModify.js`: posts
`{ sku, quantity_required: addQty, reason: addReason || null }` where
`addReason` came from `prompt` (possibly cancelled). -/
def handleAddItem (sku : String) (addQty : Nat) (addReason : Option String) :
    AddItemPost :=
  { sku := sku, quantity_required := addQty
    reason := promptOrNull addReason }

/-! ## Picklist status badge (PicklistPage.js) -/

/-- `allPicked` from `PicklistPage.js`:
`order.items.every(item => item.picking_status === 'picked')`. -/
def allPicked (order : StoreOrder) : Bool :=
  order.items.all (fun item => item.picking_status == PickingStatus.picked)

/-- The status badge text rendered by `PicklistPage.js`: `Completed` when
`allPicked`, `Pending` otherwise. -/
def picklistStatusBadge (order : StoreOrder) : String :=
  if allPicked order then "Completed" else "Pending"

/-! ## Route protection (App.js) -/

/-- The authenticated user context consumed by `ProtectedRoute`
(role is the schema's `ENUM('admin','staff')`). -/
structure AuthUser where
  id : Nat
  role : Role
deriving DecidableEq, Repr

/-- What a guarded route element resolves to. -/
inductive RouteOutcome where
  | spinner
  | redirect (dest : String)
  | render
deriving DecidableEq, Repr

/-- The dashboard path `App.js` redirects a signed-in user to:
`user.role === 'admin' ? '/admin' : '/staff'`. -/
def dashboardOf (r : Role) : String :=
  if r = Role.admin then "/admin" else "/staff"

/-- `ProtectedRoute` from `App.js`: spinner while loading; redirect to
`/login` when there is no user; redirect to the user's own dashboard when
`allowedRoles` is given and does not include the user's role; otherwise
render the children. -/
def protectedRoute (loading : Bool) (user : Option AuthUser)
    (allowedRoles : Option (List Role)) : RouteOutcome :=
  if loading then RouteOutcome.spinner
  else
    match user with
    | none => RouteOutcome.redirect "/login"
    | some u =>
      match allowedRoles with
      | some roles =>
        if ¬ roles.contains u.role then
          RouteOutcome.redirect (dashboardOf u.role)
        else RouteOutcome.render
      | none => RouteOutcome.render

/-- The `/admin` subtree of `App.js`:
`<ProtectedRoute allowedRoles={['admin']}>`. -/
def adminRouteGuard (loading : Bool) (user : Option AuthUser) : RouteOutcome :=
  protectedRoute loading user (some [Role.admin])

/-- The `/staff` subtree of `App.js`:
`<ProtectedRoute allowedRoles={['admin', 'staff']}>`. -/
def staffRouteGuard (loading : Bool) (user : Option AuthUser) : RouteOutcome :=
  protectedRoute loading user (some [Role.admin, Role.staff])

/-! ## Sample data for concrete witnesses -/

/-- A two-order store with items and one log row, used to exercise the
deletion frame at a concrete input. -/
def sampleDB : DB :=
  { orders :=
      [{ id := 1, order_number := "ORD-0001", customer_name := "Ravi",
         status := OrderStatus.pending },
       { id := 2, order_number := "ORD-0002", customer_name := "Mani",
         status := OrderStatus.completed }]
    order_items :=
      [{ id := 1, order_id := 1, sku := "WIRE001", quantity_required := 5,
         picking_status := PickingStatus.picked },
       { id := 2, order_id := 2, sku := "PIPE002", quantity_required := 4,
         picking_status := PickingStatus.pending }]
    order_modification_logs :=
      [{ id := 1, order_id := 1, order_number := "ORD-0001",
         modification_type := "qty_change", field_changed := "quantity",
         old_value := "5", new_value := "8", reason := none }] }

/-- The order row of `sampleDB` that is not deleted. -/
def sampleOrderRow2 : OrderRow :=
  { id := 2, order_number := "ORD-0002", customer_name := "Mani",
    status := OrderStatus.completed }

/-- The item row of `sampleDB` belonging to the surviving order. -/
def sampleItemRow2 : OrderItemRow :=
  { id := 2, order_id := 2, sku := "PIPE002", quantity_required := 4,
    picking_status := PickingStatus.pending }

/-- A concrete draft line for the order-creation witness. -/
def sampleDraftItem : DraftItem :=
  { sku := "WIRE001", product_name := "Copper Wire",
    full_location_code := "A-01-R01-S1-B01", quantity_required := 5,
    quantity_available := 20 }

/-- The product matching `sampleDraftItem`. -/
def sampleProduct : Product :=
  { sku := "WIRE001", product_name := "Copper Wire",
    full_location_code := "A-01-R01-S1-B01", quantity_available := 20 }

/-- An order whose single item is picked but whose stored status is still
pending. -/
def samplePickedOrder : StoreOrder :=
  { id := 1, order_number := "ORD-0001", customer_name := "Ravi",
    status := OrderStatus.pending,
    items := [{ id := 1, sku := "WIRE001", product_name := "Copper Wire",
                full_location_code := "A-01-R01-S1-B01",
                quantity_required := 5,
                picking_status := PickingStatus.picked }] }

/-- An order with zero items whose stored status is completed. -/
def sampleEmptyOrder : StoreOrder :=
  { id := 2, order_number := "ORD-0002", customer_name := "Mani",
    status := OrderStatus.completed, items := [] }

/-! ## Helper lemmas -/

/-- One ledger operation with a non-negative amount keeps a non-negative
quantity non-negative. -/
theorem applyStockOp_nonneg (qty : Int) (op : StockOp) (hq : 0 ≤ qty)
    (ha : 0 ≤ op.amount) : 0 ≤ applyStockOp qty op := by
  cases op with
  | deductOp a =>
    simp only [StockOp.amount] at ha
    by_cases h : qty < a
    · simpa [applyStockOp, deduct, h] using hq
    · simp only [applyStockOp, deduct, if_neg h]
      omega
  | restoreOp a =>
    simp only [applyStockOp, restore]
    simp only [StockOp.amount] at ha
    omega

/-- A run of ledger operations with non-negative amounts keeps the
quantity non-negative. -/
theorem runStockOps_nonneg (ops : List StockOp) : ∀ qty : Int, 0 ≤ qty →
    (∀ op ∈ ops, 0 ≤ op.amount) → 0 ≤ runStockOps qty ops := by
  induction ops with
  | nil =>
    intro qty hq _
    simpa [runStockOps] using hq
  | cons op rest ih =>
    intro qty hq hops
    have hstep : 0 ≤ applyStockOp qty op :=
      applyStockOp_nonneg qty op hq (hops op (by simp))
    have hrun : runStockOps qty (op :: rest) =
        runStockOps (applyStockOp qty op) rest := by
      simp [runStockOps]
    rw [hrun]
    exact ih _ hstep (fun o ho => hops o (by simp [ho]))

/-- Every transition the toggle state machine actually logs was performed
by an admin (a staff attempt is rejected and logs nothing). -/
theorem runToggles_log_admin (actors : List Role) :
    ∀ (init : OrderStatus) (a : Role) (pre post : OrderStatus),
      (a, pre, post) ∈ (runToggles init actors).2 → a = Role.admin := by
  induction actors with
  | nil =>
    intro init a pre post h
    simp [runToggles] at h
  | cons r rest ih =>
    intro init a pre post h
    cases r with
    | admin =>
      simp only [runToggles, toggleStatus, isAdminRole, if_pos,
        List.mem_cons] at h
      rcases h with h | h
      · exact congrArg Prod.fst h
      · exact ih _ _ _ _ h
    | staff =>
      simp only [runToggles, toggleStatus, isAdminRole] at h
      exact ih _ _ _ _ h

/-! ## Claim theorems -/

/-- C1: for every sequence of Stock Ledger deduct/restore operations, a
product's `quantity_available` is never negative: `deduct` fails with
`InsufficientStock` whenever `quantity_available < amount` and otherwise
decrements by exactly `amount`; `restore` always increments by exactly
`amount`. -/
theorem stock_ledger_nonnegative_C1 :
    (∀ qty amount : Int, qty < amount →
      deduct qty amount = Except.error StockError.InsufficientStock)
  ∧ (∀ qty amount : Int, amount ≤ qty →
      deduct qty amount = Except.ok (qty - amount))
  ∧ (∀ qty amount : Int, restore qty amount = qty + amount)
  ∧ (∀ (qty : Int) (ops : List StockOp), 0 ≤ qty →
      (∀ op ∈ ops, 0 ≤ op.amount) → 0 ≤ runStockOps qty ops) := by
  refine ⟨?_, ?_, ?_, ?_⟩
  · intro qty amount h
    simp [deduct, h]
  · intro qty amount h
    simp [deduct, Int.not_lt.mpr h]
  · intro qty amount
    rfl
  · intro qty ops hq hops
    exact runStockOps_nonneg ops qty hq hops

/-- Witness for C1 at concrete inputs. -/
theorem stock_ledger_nonnegative_C1_witness :
    deduct 2 5 = Except.error StockError.InsufficientStock
  ∧ deduct 20 5 = Except.ok 15
  ∧ restore 15 5 = 20
  ∧ 0 ≤ runStockOps 20
      [StockOp.deductOp 5, StockOp.restoreOp 3, StockOp.deductOp 18] :=
  ⟨stock_ledger_nonnegative_C1.1 2 5 (by decide),
    stock_ledger_nonnegative_C1.2.1 20 5 (by decide),
    stock_ledger_nonnegative_C1.2.2.1 15 5,
    stock_ledger_nonnegative_C1.2.2.2 20
      [StockOp.deductOp 5, StockOp.restoreOp 3, StockOp.deductOp 18]
      (by decide) (by decide)⟩

/-- C2: for every edit operation gated by `canEdit` (add item, remove
item, change quantity, change customer name): on a completed order a
staff actor is denied and an admin actor is allowed; on a pending order
both roles are allowed — the decision equals (actor is admin) OR (order
status is pending). -/
theorem edit_permission_C2 :
    (∀ o : StoreOrder, o.status = OrderStatus.completed →
      canEdit Role.staff (some o) = false)
  ∧ (∀ o : StoreOrder, o.status = OrderStatus.completed →
      canEdit Role.admin (some o) = true)
  ∧ (∀ o : StoreOrder, o.status = OrderStatus.pending →
      canEdit Role.staff (some o) = true ∧ canEdit Role.admin (some o) = true)
  ∧ (∀ (role : Role) (o : StoreOrder),
      canEdit role (some o) =
        (isAdminRole role || decide (o.status = OrderStatus.pending))) := by
  refine ⟨?_, ?_, ?_, ?_⟩
  · intro o h
    simp [canEdit, isAdminRole, h]
  · intro o h
    simp [canEdit, isAdminRole]
  · intro o h
    simp [canEdit, isAdminRole, h]
  · intro role o
    cases role <;> simp [canEdit, isAdminRole]

/-- Witness for C2 at concrete orders. -/
theorem edit_permission_C2_witness :
    canEdit Role.staff
      (some { id := 1, order_number := "ORD-0001", customer_name := "Ravi",
              status := OrderStatus.completed, items := [] }) = false
  ∧ canEdit Role.admin
      (some { id := 1, order_number := "ORD-0001", customer_name := "Ravi",
              status := OrderStatus.completed, items := [] }) = true
  ∧ canEdit Role.staff
      (some { id := 2, order_number := "ORD-0002", customer_name := "Mani",
              status := OrderStatus.pending, items := [] }) = true
  ∧ canEdit Role.admin
      (some { id := 2, order_number := "ORD-0002", customer_name := "Mani",
              status := OrderStatus.pending, items := [] }) = true :=
  ⟨edit_permission_C2.1 _ rfl, edit_permission_C2.2.1 _ rfl,
    (edit_permission_C2.2.2.1 _ rfl).1, (edit_permission_C2.2.2.1 _ rfl).2⟩

/-- C3: the order status state machine has exactly the states pending and
completed with initial state pending; a reopen (completed to pending) is
always rejected for a staff actor and always performed for an admin
actor, so along every run every logged reopen was done by an admin. -/
theorem status_machine_C3 :
    (∀ s : OrderStatus, s = OrderStatus.pending ∨ s = OrderStatus.completed)
  ∧ initialOrderStatus = OrderStatus.pending
  ∧ (∀ s : OrderStatus, toggleStatus Role.staff s = none)
  ∧ toggleStatus Role.admin OrderStatus.completed = some OrderStatus.pending
  ∧ (∀ (init : OrderStatus) (actors : List Role) (a : Role)
        (pre post : OrderStatus),
      (a, pre, post) ∈ (runToggles init actors).2 →
      pre = OrderStatus.completed → post = OrderStatus.pending →
      a = Role.admin) := by
  refine ⟨?_, rfl, ?_, rfl, ?_⟩
  · intro s
    cases s
    · exact Or.inl rfl
    · exact Or.inr rfl
  · intro s
    simp [toggleStatus, isAdminRole]
  · intro init actors a pre post hmem _ _
    exact runToggles_log_admin actors init a pre post hmem

/-- Witness for C3: a concrete run (admin completes, then admin reopens)
whose logged reopen the theorem attributes to an admin. -/
theorem status_machine_C3_witness :
    toggleStatus Role.staff OrderStatus.completed = none
  ∧ toggleStatus Role.admin OrderStatus.completed = some OrderStatus.pending
  ∧ Role.admin = Role.admin :=
  ⟨status_machine_C3.2.2.1 OrderStatus.completed,
    status_machine_C3.2.2.2.1,
    status_machine_C3.2.2.2.2 OrderStatus.pending [Role.admin, Role.admin]
      Role.admin OrderStatus.completed OrderStatus.pending
      (by simp [runToggles, toggleStatus, isAdminRole, toggledStatus])
      rfl rfl⟩

/-- C4: deleting an order removes the order and cascade-deletes exactly
its own order items; its modification-log rows are unaffected and remain
queryable afterwards; rows of other orders are untouched. -/
theorem delete_order_frame_C4 :
    (∀ (db : DB) (oid : Nat) (o : OrderRow),
      o ∈ (deleteOrder db oid).orders → ¬ o.id = oid)
  ∧ (∀ (db : DB) (oid : Nat) (o : OrderRow), ¬ o.id = oid →
      (o ∈ (deleteOrder db oid).orders ↔ o ∈ db.orders))
  ∧ (∀ (db : DB) (oid : Nat) (it : OrderItemRow),
      it ∈ (deleteOrder db oid).order_items → ¬ it.order_id = oid)
  ∧ (∀ (db : DB) (oid : Nat) (it : OrderItemRow), ¬ it.order_id = oid →
      (it ∈ (deleteOrder db oid).order_items ↔ it ∈ db.order_items))
  ∧ (∀ (db : DB) (oid : Nat),
      (deleteOrder db oid).order_modification_logs =
        db.order_modification_logs)
  ∧ (∀ (db : DB) (oid x : Nat),
      historyFor (deleteOrder db oid) x = historyFor db x) := by
  refine ⟨?_, ?_, ?_, ?_, ?_, ?_⟩
  · intro db oid o h
    exact of_decide_eq_true (List.mem_filter.mp h).2
  · intro db oid o h
    simp [deleteOrder, List.mem_filter, h]
  · intro db oid it h
    exact of_decide_eq_true (List.mem_filter.mp h).2
  · intro db oid it h
    simp [deleteOrder, List.mem_filter, h]
  · intro db oid
    rfl
  · intro db oid x
    rfl

/-- Witness for C4: deleting order 1 from the sample store. -/
theorem delete_order_frame_C4_witness :
    ¬ sampleOrderRow2.id = 1
  ∧ (sampleOrderRow2 ∈ (deleteOrder sampleDB 1).orders ↔
      sampleOrderRow2 ∈ sampleDB.orders)
  ∧ ¬ sampleItemRow2.order_id = 1
  ∧ (sampleItemRow2 ∈ (deleteOrder sampleDB 1).order_items ↔
      sampleItemRow2 ∈ sampleDB.order_items)
  ∧ (deleteOrder sampleDB 1).order_modification_logs =
      sampleDB.order_modification_logs
  ∧ historyFor (deleteOrder sampleDB 1) 1 = historyFor sampleDB 1 :=
  ⟨delete_order_frame_C4.1 sampleDB 1 sampleOrderRow2 (by decide),
    delete_order_frame_C4.2.1 sampleDB 1 sampleOrderRow2 (by decide),
    delete_order_frame_C4.2.2.1 sampleDB 1 sampleItemRow2 (by decide),
    delete_order_frame_C4.2.2.2.1 sampleDB 1 sampleItemRow2 (by decide),
    delete_order_frame_C4.2.2.2.2.1 sampleDB 1,
    delete_order_frame_C4.2.2.2.2.2 sampleDB 1 1⟩

/-- The sku column of the list `addItem` produces: unchanged when the sku
was already present, extended by the new sku otherwise. -/
theorem draftSkus_addItem (items : List DraftItem) (p : Product) (q : Nat) :
    draftSkus (addItem items p q) =
      if items.any (fun i => i.sku == p.sku) then draftSkus items
      else draftSkus items ++ [p.sku] := by
  by_cases h : items.any (fun i => i.sku == p.sku)
  · simp only [addItem, if_pos h, draftSkus, List.map_map]
    refine List.map_congr_left ?_
    intro a _
    simp only [Function.comp]
    split <;> rfl
  · simp [addItem, h, draftSkus]

/-- `addItem` preserves distinctness of the draft skus. -/
theorem addItem_nodup (items : List DraftItem) (p : Product) (q : Nat)
    (h : (draftSkus items).Nodup) : (draftSkus (addItem items p q)).Nodup := by
  rw [draftSkus_addItem]
  by_cases hc : items.any (fun i => i.sku == p.sku)
  · simpa [hc] using h
  · rw [if_neg hc]
    refine List.nodup_append.mpr ⟨h, List.nodup_singleton _, ?_⟩
    intro s hs hmem
    simp at hmem
    subst hmem
    simp [List.any_eq_true] at hc
    rcases List.mem_map.mp hs with ⟨i, hi, hisku⟩
    exact hc i hi hisku

/-- `removeItem` preserves distinctness of the draft skus. -/
theorem removeDraftItem_nodup (items : List DraftItem) (sku : String)
    (h : (draftSkus items).Nodup) :
    (draftSkus (removeDraftItem items sku)).Nodup := by
  have hsub : List.Sublist (removeDraftItem items sku) items :=
    List.filter_sublist items
  exact h.sublist (hsub.map _)

/-- `updateQuantity` preserves distinctness of the draft skus. -/
theorem updateQuantity_nodup (items : List DraftItem) (sku : String)
    (qty : Int) (h : (draftSkus items).Nodup) :
    (draftSkus (updateQuantity items sku qty)).Nodup := by
  by_cases hq : qty < 1
  · simpa [updateQuantity, hq] using h
  · have heq : draftSkus (updateQuantity items sku qty) = draftSkus items := by
      simp only [updateQuantity, if_neg hq, draftSkus, List.map_map]
      refine List.map_congr_left ?_
      intro a _
      simp only [Function.comp]
      split <;> rfl
    rwa [heq]

/-- Every draft action preserves distinctness of the draft skus. -/
theorem applyDraftAction_nodup (items : List DraftItem) (act : DraftAction)
    (h : (draftSkus items).Nodup) :
    (draftSkus (applyDraftAction items act)).Nodup := by
  cases act with
  | add p q => exact addItem_nodup items p q h
  | remove sku => exact removeDraftItem_nodup items sku h
  | update sku qty => exact updateQuantity_nodup items sku qty h

/-- Folding draft actions preserves distinctness of the draft skus. -/
theorem foldlDraft_nodup (acts : List DraftAction) :
    ∀ items : List DraftItem, (draftSkus items).Nodup →
      (draftSkus (acts.foldl applyDraftAction items)).Nodup := by
  induction acts with
  | nil => intro items h; simpa using h
  | cons act rest ih =>
    intro items h
    exact ih _ (applyDraftAction_nodup items act h)

/-- Adding a product whose sku is already in the draft list (of distinct
skus) rewrites that single line in place, incrementing its quantity. -/
theorem addItem_merge (items : List DraftItem) (p : Product) (q : Nat)
    (hnd : (draftSkus items).Nodup) (i : DraftItem) (hi : i ∈ items)
    (hsku : i.sku = p.sku) :
    ∃ l r, items = l ++ i :: r ∧
      addItem items p q =
        l ++ { i with quantity_required := i.quantity_required + q } :: r := by
  rcases List.append_of_mem hi with ⟨l, r, rfl⟩
  have hnd' : (l.map (fun j => j.sku) ++
      i.sku :: r.map (fun j => j.sku)).Nodup := by
    simpa [draftSkus] using hnd
  have h3 := List.nodup_append.mp hnd'
  have hskul : ∀ j ∈ l, ¬ j.sku = p.sku := by
    intro j hj heq
    exact h3.2.2 (List.mem_map.mpr ⟨j, hj, rfl⟩)
      (by rw [heq, ← hsku]; exact List.mem_cons_self _ _)
  have hskur : ∀ j ∈ r, ¬ j.sku = p.sku := by
    intro j hj heq
    exact (List.nodup_cons.mp h3.2.1).1
      (List.mem_map.mpr ⟨j, hj, by rw [heq, hsku]⟩)
  have hany : (l ++ i :: r).any (fun j => j.sku == p.sku) = true := by
    simp only [List.any_eq_true]
    exact ⟨i, by simp, by simp [hsku]⟩
  refine ⟨l, r, rfl, ?_⟩
  simp only [addItem, if_pos hany, List.map_append, List.map_cons]
  congr 1
  · conv_rhs => rw [← List.map_id l]
    refine List.map_congr_left ?_
    intro j hj
    have hne : (j.sku == p.sku) = false := by
      simp [hskul j hj]
    simp [hne]
  · congr 1
    · simp [hsku]
    · conv_rhs => rw [← List.map_id r]
      refine List.map_congr_left ?_
      intro j hj
      have hne : (j.sku == p.sku) = false := by
        simp [hskur j hj]
      simp [hne]

/-- The sku column of the submitted payload is the sku column of the
draft list. -/
theorem submitItems_fst (items : List DraftItem) :
    (submitItems items).map Prod.fst = draftSkus items := by
  simp [submitItems, draftSkus, List.map_map, Function.comp]

/-- C5: adding a product whose SKU already appears in the draft item list
increments that line's `quantity_required` by the entered quantity and
appends no second line; consequently the items list submitted to order
creation never contains two entries with the same SKU. -/
theorem create_order_merge_C5 :
    (∀ (items : List DraftItem) (p : Product) (q : Nat),
      (draftSkus items).Nodup → ∀ i ∈ items, i.sku = p.sku →
      ∃ l r, items = l ++ i :: r ∧
        addItem items p q =
          l ++ { i with quantity_required := i.quantity_required + q } :: r)
  ∧ (∀ acts : List DraftAction, (draftSkus (runDraft acts)).Nodup)
  ∧ (∀ acts : List DraftAction,
      ((submitItems (runDraft acts)).map Prod.fst).Nodup) := by
  refine ⟨?_, ?_, ?_⟩
  · intro items p q hnd i hi hsku
    exact addItem_merge items p q hnd i hi hsku
  · intro acts
    exact foldlDraft_nodup acts [] (by simp [draftSkus])
  · intro acts
    rw [submitItems_fst]
    exact foldlDraft_nodup acts [] (by simp [draftSkus])

/-- Witness for C5: merging a duplicate SKU into a one-line draft. -/
theorem create_order_merge_C5_witness :
    (∃ l r, [sampleDraftItem] = l ++ sampleDraftItem :: r ∧
      addItem [sampleDraftItem] sampleProduct 3 =
        l ++ { sampleDraftItem with
                quantity_required :=
                  sampleDraftItem.quantity_required + 3 } :: r)
  ∧ (draftSkus (runDraft
      [DraftAction.add sampleProduct 5,
        DraftAction.add sampleProduct 3])).Nodup :=
  ⟨create_order_merge_C5.1 [sampleDraftItem] sampleProduct 3
      (by decide) sampleDraftItem (by simp) rfl,
    create_order_merge_C5.2.1
      [DraftAction.add sampleProduct 5, DraftAction.add sampleProduct 3]⟩

/-- C6: with a non-empty zone the generated location code is the zone,
the aisle zero-padded to 2 digits, R plus the rack zero-padded to 2
digits, S plus the shelf, and B plus the bin zero-padded to 2 digits,
joined by dashes; with an empty zone it is the empty string. -/
theorem location_code_C6 :
    (∀ (zone : String) (aisle rack shelf bin : Nat), zone ≠ "" →
      generateLocationCode zone aisle rack shelf bin =
        specLocationCode zone aisle rack shelf bin)
  ∧ (∀ aisle rack shelf bin : Nat,
      generateLocationCode "" aisle rack shelf bin = "")
  ∧ generateLocationCode "A" 3 7 2 5 = "A-03-R07-S2-B05" := by
  refine ⟨?_, ?_, by decide⟩
  · intro zone aisle rack shelf bin h
    have hR : ∀ x : String, "-" ++ ("R" ++ x) = "-R" ++ x := fun x => by
      rw [← String.append_assoc]; rfl
    have hS : ∀ x : String, "-" ++ ("S" ++ x) = "-S" ++ x := fun x => by
      rw [← String.append_assoc]; rfl
    have hB : ∀ x : String, "-" ++ ("B" ++ x) = "-B" ++ x := fun x => by
      rw [← String.append_assoc]; rfl
    simp [generateLocationCode, specLocationCode, String.intercalate,
      String.intercalate.go, h, String.append_assoc, hR, hS, hB]
  · intro aisle rack shelf bin
    rfl

/-- Witness for C6 at the spec's example address. -/
theorem location_code_C6_witness :
    generateLocationCode "A" 3 7 2 5 = specLocationCode "A" 3 7 2 5 ∧
    generateLocationCode "" 3 7 2 5 = "" :=
  ⟨location_code_C6.1 "A" 3 7 2 5 (by decide),
    location_code_C6.2.1 3 7 2 5⟩

/-- C7: a quantity change with `newQty < 1` and a customer-name change
with a name empty after trimming are each rejected as a validation error
with no request issued, so any storage state is left unchanged. -/
theorem validation_reject_C7 :
    (∀ (newQty : Int) (reason : String), newQty < 1 →
      handleUpdateQty newQty reason =
        HandlerResult.validationError "Quantity must be at least 1"
      ∧ (handleUpdateQty newQty reason).touchesStorage = false
      ∧ ∀ (S : Type) (apply : QtyPatch → S → S) (s : S),
          runHandler apply s (handleUpdateQty newQty reason) = s)
  ∧ (∀ (customerName reason : String), jsTrim customerName = "" →
      handleUpdateCustomer customerName reason =
        HandlerResult.validationError "Customer name cannot be empty"
      ∧ (handleUpdateCustomer customerName reason).touchesStorage = false
      ∧ ∀ (S : Type) (apply : CustomerPatch → S → S) (s : S),
          runHandler apply s (handleUpdateCustomer customerName reason) = s) := by
  constructor
  · intro newQty reason h
    refine ⟨by simp [handleUpdateQty, h], ?_, ?_⟩
    · simp [handleUpdateQty, h, HandlerResult.touchesStorage]
    · intro S apply s
      simp [handleUpdateQty, h, runHandler]
  · intro customerName reason h
    refine ⟨by simp [handleUpdateCustomer, h], ?_, ?_⟩
    · simp [handleUpdateCustomer, h, HandlerResult.touchesStorage]
    · intro S apply s
      simp [handleUpdateCustomer, h, runHandler]

/-- Witness for C7: a zero quantity and a whitespace-only name. -/
theorem validation_reject_C7_witness :
    handleUpdateQty 0 "typo" =
      HandlerResult.validationError "Quantity must be at least 1"
  ∧ (handleUpdateQty 0 "typo").touchesStorage = false
  ∧ handleUpdateCustomer "  " "fix" =
      HandlerResult.validationError "Customer name cannot be empty"
  ∧ (handleUpdateCustomer "  " "fix").touchesStorage = false :=
  ⟨(validation_reject_C7.1 0 "typo" (by decide)).1,
    (validation_reject_C7.1 0 "typo" (by decide)).2.1,
    (validation_reject_C7.2 "  " "fix" (by decide)).1,
    (validation_reject_C7.2 "  " "fix" (by decide)).2.1⟩

/-- C8: every mutating call passes the optional reason through verbatim —
a non-empty reason is carried exactly; an omitted or empty reason is
carried as null (or empty); no reason is ever fabricated. -/
theorem reason_verbatim_C8 :
    (∀ r : String, r ≠ "" →
      orNull r = some r ∧ promptOrNull (some r) = some r ∧
        orEmpty (some r) = r)
  ∧ (orNull "" = none ∧ promptOrNull none = none ∧
      promptOrNull (some "") = none ∧ orEmpty none = "" ∧
      orEmpty (some "") = "")
  ∧ (∀ (customerName r : String), ¬ jsTrim customerName = "" →
      handleUpdateCustomer customerName r =
        HandlerResult.request
          { customer_name := customerName, reason := orNull r })
  ∧ (∀ (newQty : Int) (r : String), ¬ newQty < 1 →
      handleUpdateQty newQty r =
        HandlerResult.request
          { quantity_required := newQty, reason := orNull r })
  ∧ (∀ (sku : String) (addQty : Nat) (addReason : Option String),
      (handleAddItem sku addQty addReason).reason = promptOrNull addReason)
  ∧ (∀ r : String, orNull r = none ∨ orNull r = some r)
  ∧ (∀ x : Option String, promptOrNull x = none ∨ promptOrNull x = x) := by
  refine ⟨?_, ?_, ?_, ?_, ?_, ?_, ?_⟩
  · intro r h
    exact ⟨by simp [orNull, h], by simp [promptOrNull, h],
      by simp [orEmpty, h]⟩
  · exact ⟨rfl, rfl, rfl, rfl, rfl⟩
  · intro customerName r h
    simp [handleUpdateCustomer, h]
  · intro newQty r h
    simp [handleUpdateQty, h]
  · intro sku addQty addReason
    rfl
  · intro r
    by_cases h : r = ""
    · exact Or.inl (by simp [orNull, h])
    · exact Or.inr (by simp [orNull, h])
  · intro x
    cases x with
    | none => exact Or.inl rfl
    | some s =>
      by_cases h : s = ""
      · exact Or.inl (by simp [promptOrNull, h])
      · exact Or.inr (by simp [promptOrNull, h])

/-- Witness for C8 at concrete reasons. -/
theorem reason_verbatim_C8_witness :
    orNull "damaged" = some "damaged"
  ∧ promptOrNull (some "damaged") = some "damaged"
  ∧ orEmpty (some "damaged") = "damaged"
  ∧ handleUpdateCustomer "Ravi" "typo" =
      HandlerResult.request { customer_name := "Ravi", reason := orNull "typo" }
  ∧ handleUpdateQty 8 "" =
      HandlerResult.request { quantity_required := 8, reason := orNull "" }
  ∧ (handleAddItem "WIRE001" 3 none).reason = promptOrNull none :=
  ⟨(reason_verbatim_C8.1 "damaged" (by decide)).1,
    (reason_verbatim_C8.1 "damaged" (by decide)).2.1,
    (reason_verbatim_C8.1 "damaged" (by decide)).2.2,
    reason_verbatim_C8.2.2.1 "Ravi" "typo" (by decide),
    reason_verbatim_C8.2.2.2.1 8 "" (by decide),
    reason_verbatim_C8.2.2.2.2.1 "WIRE001" 3 none⟩

/-- C9: the picklist page displays status Completed exactly when every
item has picking status picked (vacuously for zero items) and Pending
otherwise; the display depends only on the items, not the order's stored
status field. -/
theorem picklist_badge_C9 :
    (∀ o : StoreOrder,
      (picklistStatusBadge o = "Completed" ↔
        ∀ item ∈ o.items, item.picking_status = PickingStatus.picked))
  ∧ (∀ o : StoreOrder, o.items = [] →
      picklistStatusBadge o = "Completed")
  ∧ (∀ o : StoreOrder, picklistStatusBadge o = "Completed" ∨
      picklistStatusBadge o = "Pending")
  ∧ (∀ o o' : StoreOrder, o.items = o'.items →
      picklistStatusBadge o = picklistStatusBadge o') := by
  have hbadge : ∀ o : StoreOrder,
      (picklistStatusBadge o = "Completed" ↔
        ∀ item ∈ o.items, item.picking_status = PickingStatus.picked) := by
    intro o
    by_cases h : allPicked o
    · have hb : picklistStatusBadge o = "Completed" := by
        simp [picklistStatusBadge, h]
      rw [hb]
      simp only [allPicked, List.all_eq_true, beq_iff_eq] at h
      exact ⟨fun _ => h, fun _ => rfl⟩
    · have hb : picklistStatusBadge o = "Pending" := by
        simp [picklistStatusBadge, h]
      rw [hb]
      constructor
      · intro hcontra
        exact absurd hcontra (by decide)
      · intro hall
        exact absurd
          (by simpa [allPicked, List.all_eq_true, beq_iff_eq] using hall) h
  refine ⟨hbadge, ?_, ?_, ?_⟩
  · intro o h
    exact (hbadge o).mpr (by simp [h])
  · intro o
    by_cases h : allPicked o
    · exact Or.inl (by simp [picklistStatusBadge, h])
    · exact Or.inr (by simp [picklistStatusBadge, h])
  · intro o o' h
    simp [picklistStatusBadge, allPicked, h]

/-- Witness for C9: an all-picked order whose stored status is still
pending, and an order with zero items. -/
theorem picklist_badge_C9_witness :
    (picklistStatusBadge samplePickedOrder = "Completed" ↔
      ∀ item ∈ samplePickedOrder.items,
        item.picking_status = PickingStatus.picked)
  ∧ picklistStatusBadge sampleEmptyOrder = "Completed" :=
  ⟨picklist_badge_C9.1 samplePickedOrder,
    picklist_badge_C9.2.1 sampleEmptyOrder rfl⟩

/-- C10: routes under /admin render only for an admin — an unauthenticated
user is redirected to /login and an authenticated non-admin is redirected
to their own dashboard; routes under /staff admit both roles. -/
theorem route_protection_C10 :
    (∀ roles : Option (List Role),
      protectedRoute false none roles = RouteOutcome.redirect "/login")
  ∧ (∀ u : AuthUser,
      adminRouteGuard false (some u) = RouteOutcome.render ↔
        u.role = Role.admin)
  ∧ (∀ u : AuthUser, ¬ u.role = Role.admin →
      adminRouteGuard false (some u) =
          RouteOutcome.redirect (dashboardOf u.role)
        ∧ dashboardOf u.role = "/staff")
  ∧ (∀ u : AuthUser,
      staffRouteGuard false (some u) = RouteOutcome.render)
  ∧ staffRouteGuard false none = RouteOutcome.redirect "/login" := by
  refine ⟨?_, ?_, ?_, ?_, rfl⟩
  · intro roles
    rfl
  · intro u
    cases hu : u.role <;>
      simp [adminRouteGuard, protectedRoute, hu, dashboardOf]
  · intro u h
    cases hu : u.role with
    | admin => exact absurd hu h
    | staff =>
      exact ⟨by simp [adminRouteGuard, protectedRoute, hu],
        by simp [dashboardOf, hu]⟩
  · intro u
    cases hu : u.role <;> simp [staffRouteGuard, protectedRoute, hu]

/-- Witness for C10 at concrete users. -/
theorem route_protection_C10_witness :
    (adminRouteGuard false (some { id := 1, role := Role.admin }) =
        RouteOutcome.render ↔ Role.admin = Role.admin)
  ∧ adminRouteGuard false (some { id := 2, role := Role.staff }) =
      RouteOutcome.redirect (dashboardOf Role.staff)
  ∧ dashboardOf Role.staff = "/staff"
  ∧ staffRouteGuard false (some { id := 2, role := Role.staff }) =
      RouteOutcome.render
  ∧ protectedRoute false none (some [Role.admin]) =
      RouteOutcome.redirect "/login" :=
  ⟨route_protection_C10.2.1 { id := 1, role := Role.admin },
    (route_protection_C10.2.2.1 { id := 2, role := Role.staff }
        (by decide)).1,
    (route_protection_C10.2.2.1 { id := 2, role := Role.staff }
        (by decide)).2,
    route_protection_C10.2.2.2.1 { id := 2, role := Role.staff },
    route_protection_C10.1 (some [Role.admin])⟩
